import Mathlib

/-
Verification of the client-side session/state orchestration and the SSR shim
of the copy_zola repository.

The embedding translates the root application component (App in
src/pages/AuthPage.tsx, second document) and the Express SSR handler
(src/api/index.ts) into pure Lean functions.  React state updates become
explicit state passing; the fire-and-forget background steps of the
optimistic save, and the await points of delete, split each handler into a
synchronous phase and a resolution phase, with the remote call result passed
in as an Except / Bool value.  JavaScript truthiness on strings (empty string
is falsy) is modelled explicitly where the source relies on it.
-/

/-! ## Data model (src/types, as used by App) -/

structure User where
  id : String
  email : String
  username : String
  avatar : Option String
  deriving Repr, DecidableEq

structure GeneratedAsset where
  id : String
  user_id : String
  image_url : String
  display_url : String
  source_feature : String
  created_at : String
  deriving Repr, DecidableEq

structure CollectionAsset where
  id : String
  user_id : String
  image_url : String
  display_url : String
  asset_type : String
  item_name : String
  item_category : String
  created_at : String
  deriving Repr, DecidableEq

/-- Profile row as selected by processSession:
select('username, avatar_url'); both columns are nullable. -/
structure Profile where
  username : Option String
  avatar_url : Option String
  deriving Repr, DecidableEq

/-- The user object carried by a supabase session (only the fields App reads). -/
structure SessionUser where
  id : String
  email : Option String
  deriving Repr, DecidableEq

/-! ## Route constants

Modelled from the spec: the constants file (src/constants/paths) is not part
of the sources; the spec names a landing route and an auth route as the two
public routes, and a home route.  The route table of App maps LANDING and
AUTH to different pages, so the two are distinct strings. -/

def PATHS_LANDING : String := "/"

def PATHS_AUTH : String := "/auth"

def PATHS_HOME : String := "/home-app"

/-! ## JavaScript semantics helpers -/

/-- Truthiness of a nullable string in JavaScript: null/undefined and the
empty string are falsy. -/
def jsTruthyStr : Option String → Bool
  | none => false
  | some s => s ≠ ""

/-- The or-operator of JavaScript on a nullable string (left operand) and a
string (right operand): returns the left value when it is truthy, the right
one otherwise. -/
def jsOrOS (a : Option String) (b : String) : String :=
  match a with
  | none => b
  | some s => if s = "" then b else s

/-- The or-operator of JavaScript on two plain strings. -/
def jsOrStr (a b : String) : String :=
  if a = "" then b else a

/-! ## Optimistic save (handleAssetSaved, handleSaveToCollection)

The source handler does, synchronously: the auth guard (throwing when
currentUser is null) and the prepend of a temporary asset; the remote write
together with the replace-or-rollback runs inside a fire-and-forget async
block.  The synchronous phase is handleAssetSavedSync, the async block is
handleAssetSavedResolve with the outcome of saveAsset passed as an Except.
The second component of the resolve result is the error surfaced to the
original caller: the catch block only logs, so it is always none. -/

def tempIdFor (now : Nat) : String := "temp_" ++ toString now

def collectionTempIdFor (now : Nat) : String := "temp_collection_" ++ toString now

def mkTempAsset (userId generatedImage : String) (now : Nat) (createdAt : String) :
    GeneratedAsset :=
  { id := tempIdFor now
    user_id := userId
    image_url := "optimistic_update.png"
    display_url := generatedImage
    source_feature := "virtual_photoshoot"
    created_at := createdAt }

/-- Synchronous phase of handleAssetSaved: auth guard, then prepend of the
temporary asset.  Returns the temp id and the new list, or the thrown
message. -/
def handleAssetSavedSync (currentUser : Option User) (generatedImage : String)
    (now : Nat) (createdAt : String) (galleryAssets : List GeneratedAsset) :
    Except String (String × List GeneratedAsset) :=
  match currentUser with
  | none => .error "You must be logged in to save an image."
  | some u => .ok (tempIdFor now, mkTempAsset u.id generatedImage now createdAt :: galleryAssets)

/-- Gallery list as observed right after handleAssetSaved returns (or
throws): a throw happens before any setGalleryAssets call, so the list is
unchanged on the error path. -/
def galleryAfterSaveSync (currentUser : Option User) (generatedImage : String)
    (now : Nat) (createdAt : String) (galleryAssets : List GeneratedAsset) :
    List GeneratedAsset :=
  match handleAssetSavedSync currentUser generatedImage now createdAt galleryAssets with
  | .ok (_, l) => l
  | .error _ => galleryAssets

/-- Background phase of handleAssetSaved applied to the current gallery list:
on success the map replaces the asset whose id equals the temp id by the
real asset; on failure the filter drops it.  Second component: the error
surfaced to the caller (none in both branches — the catch only logs). -/
def handleAssetSavedResolve (tempId : String) (result : Except String GeneratedAsset)
    (galleryAssets : List GeneratedAsset) : List GeneratedAsset × Option String :=
  match result with
  | .ok realAsset => (galleryAssets.map fun asset => if asset.id = tempId then realAsset else asset, none)
  | .error _ => (galleryAssets.filter fun asset => asset.id ≠ tempId, none)

def mkTempCollectionAsset (userId imageUrl assetType itemName itemCategory : String)
    (now : Nat) (createdAt : String) : CollectionAsset :=
  { id := collectionTempIdFor now
    user_id := userId
    image_url := "optimistic_update.png"
    display_url := imageUrl
    asset_type := assetType
    item_name := itemName
    item_category := itemCategory
    created_at := createdAt }

/-- Synchronous phase of handleSaveToCollection. -/
def handleSaveToCollectionSync (currentUser : Option User)
    (imageUrl assetType itemName itemCategory : String) (now : Nat) (createdAt : String)
    (collectionAssets : List CollectionAsset) :
    Except String (String × List CollectionAsset) :=
  match currentUser with
  | none => .error "You must be logged in to save an asset."
  | some u =>
    .ok (collectionTempIdFor now,
      mkTempCollectionAsset u.id imageUrl assetType itemName itemCategory now createdAt
        :: collectionAssets)

/-- Collection list as observed right after handleSaveToCollection returns
(or throws). -/
def collectionAfterSaveSync (currentUser : Option User)
    (imageUrl assetType itemName itemCategory : String) (now : Nat) (createdAt : String)
    (collectionAssets : List CollectionAsset) : List CollectionAsset :=
  match handleSaveToCollectionSync currentUser imageUrl assetType itemName itemCategory
      now createdAt collectionAssets with
  | .ok (_, l) => l
  | .error _ => collectionAssets

/-- Background phase of handleSaveToCollection. -/
def handleSaveToCollectionResolve (tempId : String) (result : Except String CollectionAsset)
    (collectionAssets : List CollectionAsset) : List CollectionAsset × Option String :=
  match result with
  | .ok realAsset => (collectionAssets.map fun asset => if asset.id = tempId then realAsset else asset, none)
  | .error _ => (collectionAssets.filter fun asset => asset.id ≠ tempId, none)

/-! ## Generic list lemmas for the reconciler -/

theorem filter_ne_id_of_fresh {α : Type} (getId : α → String) (tid : String) :
    ∀ l : List α, (∀ a ∈ l, getId a ≠ tid) →
      l.filter (fun a => getId a ≠ tid) = l := by
  intro l h
  rw [List.filter_eq_self]
  intro a ha
  simpa using h a ha

theorem map_replace_id_of_fresh {α : Type} (getId : α → String) (tid : String) (real : α) :
    ∀ l : List α, (∀ a ∈ l, getId a ≠ tid) →
      l.map (fun a => if getId a = tid then real else a) = l := by
  intro l h
  induction l with
  | nil => rfl
  | cons x xs ih =>
    have hx : getId x ≠ tid := h x (List.mem_cons_self x xs)
    have hxs : ∀ a ∈ xs, getId a ≠ tid := fun a ha => h a (List.mem_cons_of_mem x ha)
    simp [hx, ih hxs]

theorem map_replace_mid {α : Type} (getId : α → String) (tid : String) (real ph : α)
    (l₁ l₂ : List α) (h₁ : ∀ a ∈ l₁, getId a ≠ tid) (h₂ : ∀ a ∈ l₂, getId a ≠ tid)
    (hph : getId ph = tid) :
    (l₁ ++ ph :: l₂).map (fun a => if getId a = tid then real else a) = l₁ ++ real :: l₂ := by
  simp [List.map_append, map_replace_id_of_fresh getId tid real l₁ h₁,
    map_replace_id_of_fresh getId tid real l₂ h₂, hph]

/-! ## Claim theorems: optimistic save -/

/-- Claim C3: for every save with an authenticated owner, the synchronous
step prepends a pending asset whose identifier is the placeholder prefix of
that save path followed by the current time, and whose display content is
the caller-supplied content unmodified; immediately after the synchronous
step the list head has that display content and a placeholder-prefixed
identifier, the rest of the list being the prior list.  Both save paths are
covered. -/
theorem claim_C3_sync_prepends_placeholder :
    (∀ (u : User) (img : String) (now : Nat) (ts : String) (gallery : List GeneratedAsset),
      ∃ l, handleAssetSavedSync (some u) img now ts gallery = .ok (tempIdFor now, l) ∧
        l = mkTempAsset u.id img now ts :: gallery ∧
        l.head? = some (mkTempAsset u.id img now ts) ∧
        (mkTempAsset u.id img now ts).display_url = img ∧
        (mkTempAsset u.id img now ts).id = "temp_" ++ toString now ∧
        "temp_".data <+: (mkTempAsset u.id img now ts).id.data) ∧
    (∀ (u : User) (img aty nm cat : String) (now : Nat) (ts : String)
        (collection : List CollectionAsset),
      ∃ l, handleSaveToCollectionSync (some u) img aty nm cat now ts collection =
          .ok (collectionTempIdFor now, l) ∧
        l = mkTempCollectionAsset u.id img aty nm cat now ts :: collection ∧
        l.head? = some (mkTempCollectionAsset u.id img aty nm cat now ts) ∧
        (mkTempCollectionAsset u.id img aty nm cat now ts).display_url = img ∧
        (mkTempCollectionAsset u.id img aty nm cat now ts).id =
          "temp_collection_" ++ toString now ∧
        "temp_".data <+: (mkTempCollectionAsset u.id img aty nm cat now ts).id.data) := by
  constructor
  · intro u img now ts gallery
    refine ⟨mkTempAsset u.id img now ts :: gallery, rfl, rfl, rfl, rfl, rfl, ?_⟩
    show "temp_".data <+: ("temp_" ++ toString now).data
    rw [String.data_append]
    exact List.prefix_append _ _
  · intro u img aty nm cat now ts collection
    refine ⟨mkTempCollectionAsset u.id img aty nm cat now ts :: collection,
      rfl, rfl, rfl, rfl, rfl, ?_⟩
    show "temp_".data <+: ("temp_collection_" ++ toString now).data
    rw [String.data_append]
    exact List.IsPrefix.trans (by decide) (List.prefix_append _ _)

/-- Claim C6: a save with no authenticated owner fails synchronously with
the authorization message — the error comes out of the synchronous phase,
before any background step — and the in-memory list is unchanged.  Both
save paths are covered. -/
theorem claim_C6_save_without_owner_throws_sync :
    (∀ (img : String) (now : Nat) (ts : String) (gallery : List GeneratedAsset),
      handleAssetSavedSync none img now ts gallery =
        .error "You must be logged in to save an image." ∧
      galleryAfterSaveSync none img now ts gallery = gallery) ∧
    (∀ (img aty nm cat : String) (now : Nat) (ts : String)
        (collection : List CollectionAsset),
      handleSaveToCollectionSync none img aty nm cat now ts collection =
        .error "You must be logged in to save an asset." ∧
      collectionAfterSaveSync none img aty nm cat now ts collection = collection) := by
  constructor
  · intro img now ts gallery
    exact ⟨rfl, rfl⟩
  · intro img aty nm cat now ts collection
    exact ⟨rfl, rfl⟩

/-! ## Sample data for witnesses -/

def sampleUser : User :=
  { id := "u1", email := "u1@example.com", username := "u1", avatar := none }

def sampleAsset : GeneratedAsset :=
  { id := "real_1"
    user_id := "u1"
    image_url := "shots/real_1.png"
    display_url := "https://cdn/real_1.png"
    source_feature := "virtual_photoshoot"
    created_at := "2024-01-01" }

def sampleCollectionAsset : CollectionAsset :=
  { id := "real_c1"
    user_id := "u1"
    image_url := "items/real_c1.png"
    display_url := "https://cdn/real_c1.png"
    asset_type := "individual"
    item_name := "jacket"
    item_category := "outerwear"
    created_at := "2024-01-01" }

/-! ## Resolution lemmas for the two save paths -/

theorem gallery_resolve_error (tid e : String) (ph : GeneratedAsset)
    (gallery : List GeneratedAsset) (hph : ph.id = tid)
    (hfresh : ∀ a ∈ gallery, a.id ≠ tid) :
    handleAssetSavedResolve tid (.error e) (ph :: gallery) = (gallery, none) := by
  have h1 : (ph :: gallery).filter (fun asset => asset.id ≠ tid) = gallery := by
    rw [List.filter_cons, if_neg (by simp [hph])]
    exact filter_ne_id_of_fresh (fun a => a.id) tid gallery hfresh
  simpa [handleAssetSavedResolve] using h1

theorem collection_resolve_error (tid e : String) (ph : CollectionAsset)
    (collection : List CollectionAsset) (hph : ph.id = tid)
    (hfresh : ∀ a ∈ collection, a.id ≠ tid) :
    handleSaveToCollectionResolve tid (.error e) (ph :: collection) = (collection, none) := by
  have h1 : (ph :: collection).filter (fun asset => asset.id ≠ tid) = collection := by
    rw [List.filter_cons, if_neg (by simp [hph])]
    exact filter_ne_id_of_fresh (fun a => a.id) tid collection hfresh
  simpa [handleSaveToCollectionResolve] using h1

/-! ## Claim theorems: background resolution -/

/-- Claim C1: when the background remote write of a save fails, the
placeholder entry is removed from the list entirely, the list is back to its
pre-save content (hence its pre-save length), and no error is surfaced to
the original caller (the second component of the resolution is none — the
catch block only logs).  The freshness hypothesis states what the placeholder
scheme provides: no pre-existing entry carries this save's temp id.  Both
save paths are covered. -/
theorem claim_C1_save_failure_silent_rollback :
    (∀ (u : User) (img : String) (now : Nat) (ts : String)
        (gallery : List GeneratedAsset) (e : String),
      (∀ a ∈ gallery, a.id ≠ tempIdFor now) →
      ∃ l, handleAssetSavedSync (some u) img now ts gallery = .ok (tempIdFor now, l) ∧
        handleAssetSavedResolve (tempIdFor now) (.error e) l = (gallery, none) ∧
        (handleAssetSavedResolve (tempIdFor now) (.error e) l).1.length = gallery.length ∧
        ∀ a ∈ (handleAssetSavedResolve (tempIdFor now) (.error e) l).1, a.id ≠ tempIdFor now) ∧
    (∀ (u : User) (img aty nm cat : String) (now : Nat) (ts : String)
        (collection : List CollectionAsset) (e : String),
      (∀ a ∈ collection, a.id ≠ collectionTempIdFor now) →
      ∃ l, handleSaveToCollectionSync (some u) img aty nm cat now ts collection =
          .ok (collectionTempIdFor now, l) ∧
        handleSaveToCollectionResolve (collectionTempIdFor now) (.error e) l =
          (collection, none) ∧
        (handleSaveToCollectionResolve (collectionTempIdFor now) (.error e) l).1.length =
          collection.length ∧
        ∀ a ∈ (handleSaveToCollectionResolve (collectionTempIdFor now) (.error e) l).1,
          a.id ≠ collectionTempIdFor now) := by
  constructor
  · intro u img now ts gallery e hfresh
    have hres := gallery_resolve_error (tempIdFor now) e (mkTempAsset u.id img now ts)
      gallery rfl hfresh
    exact ⟨mkTempAsset u.id img now ts :: gallery, rfl, hres, by rw [hres],
      by rw [hres]; exact hfresh⟩
  · intro u img aty nm cat now ts collection e hfresh
    have hres := collection_resolve_error (collectionTempIdFor now) e
      (mkTempCollectionAsset u.id img aty nm cat now ts) collection rfl hfresh
    exact ⟨mkTempCollectionAsset u.id img aty nm cat now ts :: collection, rfl, hres,
      by rw [hres], by rw [hres]; exact hfresh⟩

/-- Witness for claim C1 at concrete inputs, both save paths. -/
theorem claim_C1_witness :
    ((∀ a ∈ [sampleAsset], a.id ≠ tempIdFor 7) ∧
      ∃ l, handleAssetSavedSync (some sampleUser) "data:image/png;base64,AAA" 7 "2024-01-02"
          [sampleAsset] = .ok (tempIdFor 7, l) ∧
        handleAssetSavedResolve (tempIdFor 7) (.error "network down") l = ([sampleAsset], none) ∧
        (handleAssetSavedResolve (tempIdFor 7) (.error "network down") l).1.length =
          [sampleAsset].length ∧
        ∀ a ∈ (handleAssetSavedResolve (tempIdFor 7) (.error "network down") l).1,
          a.id ≠ tempIdFor 7) ∧
    ((∀ a ∈ [sampleCollectionAsset], a.id ≠ collectionTempIdFor 7) ∧
      ∃ l, handleSaveToCollectionSync (some sampleUser) "data:image/png;base64,BBB"
          "individual" "coat" "outerwear" 7 "2024-01-02" [sampleCollectionAsset] =
          .ok (collectionTempIdFor 7, l) ∧
        handleSaveToCollectionResolve (collectionTempIdFor 7) (.error "network down") l =
          ([sampleCollectionAsset], none) ∧
        (handleSaveToCollectionResolve (collectionTempIdFor 7) (.error "network down") l).1.length =
          [sampleCollectionAsset].length ∧
        ∀ a ∈ (handleSaveToCollectionResolve (collectionTempIdFor 7) (.error "network down") l).1,
          a.id ≠ collectionTempIdFor 7) :=
  ⟨⟨by decide,
    claim_C1_save_failure_silent_rollback.1 sampleUser "data:image/png;base64,AAA" 7
      "2024-01-02" [sampleAsset] "network down" (by decide)⟩,
   ⟨by decide,
    claim_C1_save_failure_silent_rollback.2 sampleUser "data:image/png;base64,BBB"
      "individual" "coat" "outerwear" 7 "2024-01-02" [sampleCollectionAsset] "network down"
      (by decide)⟩⟩

/-- Claim C2: when the background remote write of a save succeeds, the
placeholder (matched by its temp id, sitting at any position in the current
list) is replaced in-place by the authoritative asset: the list around it is
unchanged, the entry at the placeholder's index becomes the real asset, and
— under the remote contract that authoritative identifiers are not
placeholder-prefixed — that entry's identifier no longer has the placeholder
prefix.  No error is surfaced.  Both save paths are covered. -/
theorem claim_C2_save_success_replaces_in_place :
    (∀ (tid : String) (real ph : GeneratedAsset) (l₁ l₂ : List GeneratedAsset),
      ph.id = tid → (∀ a ∈ l₁, a.id ≠ tid) → (∀ a ∈ l₂, a.id ≠ tid) →
      ¬ ("temp_".data <+: real.id.data) →
      handleAssetSavedResolve tid (.ok real) (l₁ ++ ph :: l₂) = (l₁ ++ real :: l₂, none) ∧
      (l₁ ++ ph :: l₂)[l₁.length]? = some ph ∧
      (handleAssetSavedResolve tid (.ok real) (l₁ ++ ph :: l₂)).1[l₁.length]? = some real ∧
      ∀ b, (handleAssetSavedResolve tid (.ok real) (l₁ ++ ph :: l₂)).1[l₁.length]? = some b →
        ¬ ("temp_".data <+: b.id.data)) ∧
    (∀ (tid : String) (real ph : CollectionAsset) (l₁ l₂ : List CollectionAsset),
      ph.id = tid → (∀ a ∈ l₁, a.id ≠ tid) → (∀ a ∈ l₂, a.id ≠ tid) →
      ¬ ("temp_".data <+: real.id.data) →
      handleSaveToCollectionResolve tid (.ok real) (l₁ ++ ph :: l₂) =
        (l₁ ++ real :: l₂, none) ∧
      (l₁ ++ ph :: l₂)[l₁.length]? = some ph ∧
      (handleSaveToCollectionResolve tid (.ok real) (l₁ ++ ph :: l₂)).1[l₁.length]? =
        some real ∧
      ∀ b, (handleSaveToCollectionResolve tid (.ok real) (l₁ ++ ph :: l₂)).1[l₁.length]? =
          some b → ¬ ("temp_".data <+: b.id.data)) := by
  constructor
  · intro tid real ph l₁ l₂ hph h₁ h₂ hreal
    have hmap : (l₁ ++ ph :: l₂).map (fun a => if a.id = tid then real else a) =
        l₁ ++ real :: l₂ :=
      map_replace_mid (fun a => a.id) tid real ph l₁ l₂ h₁ h₂ hph
    have hres : handleAssetSavedResolve tid (.ok real) (l₁ ++ ph :: l₂) =
        (l₁ ++ real :: l₂, none) := by
      simpa [handleAssetSavedResolve] using hmap
    have hidx : (l₁ ++ real :: l₂)[l₁.length]? = some real := by
      rw [List.getElem?_append_right (le_refl _)]
      simp
    have hidx0 : (l₁ ++ ph :: l₂)[l₁.length]? = some ph := by
      rw [List.getElem?_append_right (le_refl _)]
      simp
    refine ⟨hres, hidx0, by rw [hres]; exact hidx, ?_⟩
    intro b hb
    rw [hres] at hb
    rw [hidx] at hb
    cases hb
    exact hreal
  · intro tid real ph l₁ l₂ hph h₁ h₂ hreal
    have hmap : (l₁ ++ ph :: l₂).map (fun a => if a.id = tid then real else a) =
        l₁ ++ real :: l₂ :=
      map_replace_mid (fun a => a.id) tid real ph l₁ l₂ h₁ h₂ hph
    have hres : handleSaveToCollectionResolve tid (.ok real) (l₁ ++ ph :: l₂) =
        (l₁ ++ real :: l₂, none) := by
      simpa [handleSaveToCollectionResolve] using hmap
    have hidx : (l₁ ++ real :: l₂)[l₁.length]? = some real := by
      rw [List.getElem?_append_right (le_refl _)]
      simp
    have hidx0 : (l₁ ++ ph :: l₂)[l₁.length]? = some ph := by
      rw [List.getElem?_append_right (le_refl _)]
      simp
    refine ⟨hres, hidx0, by rw [hres]; exact hidx, ?_⟩
    intro b hb
    rw [hres] at hb
    rw [hidx] at hb
    cases hb
    exact hreal

def sampleRealAsset : GeneratedAsset :=
  { id := "real_2"
    user_id := "u1"
    image_url := "shots/real_2.png"
    display_url := "https://cdn/real_2.png"
    source_feature := "virtual_photoshoot"
    created_at := "2024-01-03" }

def sampleRealCollectionAsset : CollectionAsset :=
  { id := "real_c2"
    user_id := "u1"
    image_url := "items/real_c2.png"
    display_url := "https://cdn/real_c2.png"
    asset_type := "composed"
    item_name := "dress"
    item_category := "dresses"
    created_at := "2024-01-03" }

/-- Witness for claim C2 at concrete inputs, both save paths. -/
theorem claim_C2_witness :
    (((mkTempAsset "u1" "IMG" 9 "T9").id = tempIdFor 9 ∧
      (∀ a ∈ [sampleAsset], a.id ≠ tempIdFor 9) ∧
      (∀ a ∈ ([] : List GeneratedAsset), a.id ≠ tempIdFor 9) ∧
      ¬ ("temp_".data <+: sampleRealAsset.id.data)) ∧
      (handleAssetSavedResolve (tempIdFor 9) (.ok sampleRealAsset)
          ([sampleAsset] ++ mkTempAsset "u1" "IMG" 9 "T9" :: []) =
        ([sampleAsset] ++ sampleRealAsset :: [], none) ∧
      ([sampleAsset] ++ mkTempAsset "u1" "IMG" 9 "T9" :: [])[[sampleAsset].length]? =
        some (mkTempAsset "u1" "IMG" 9 "T9") ∧
      (handleAssetSavedResolve (tempIdFor 9) (.ok sampleRealAsset)
          ([sampleAsset] ++ mkTempAsset "u1" "IMG" 9 "T9" :: [])).1[[sampleAsset].length]? =
        some sampleRealAsset ∧
      ∀ b, (handleAssetSavedResolve (tempIdFor 9) (.ok sampleRealAsset)
          ([sampleAsset] ++ mkTempAsset "u1" "IMG" 9 "T9" :: [])).1[[sampleAsset].length]? =
          some b → ¬ ("temp_".data <+: b.id.data))) ∧
    (((mkTempCollectionAsset "u1" "IMG" "individual" "coat" "outerwear" 9 "T9").id =
        collectionTempIdFor 9 ∧
      (∀ a ∈ [sampleCollectionAsset], a.id ≠ collectionTempIdFor 9) ∧
      (∀ a ∈ ([] : List CollectionAsset), a.id ≠ collectionTempIdFor 9) ∧
      ¬ ("temp_".data <+: sampleRealCollectionAsset.id.data)) ∧
      (handleSaveToCollectionResolve (collectionTempIdFor 9) (.ok sampleRealCollectionAsset)
          ([sampleCollectionAsset] ++
            mkTempCollectionAsset "u1" "IMG" "individual" "coat" "outerwear" 9 "T9" :: []) =
        ([sampleCollectionAsset] ++ sampleRealCollectionAsset :: [], none) ∧
      ([sampleCollectionAsset] ++
          mkTempCollectionAsset "u1" "IMG" "individual" "coat" "outerwear" 9 "T9" ::
          [])[[sampleCollectionAsset].length]? =
        some (mkTempCollectionAsset "u1" "IMG" "individual" "coat" "outerwear" 9 "T9") ∧
      (handleSaveToCollectionResolve (collectionTempIdFor 9) (.ok sampleRealCollectionAsset)
          ([sampleCollectionAsset] ++
            mkTempCollectionAsset "u1" "IMG" "individual" "coat" "outerwear" 9 "T9" ::
            [])).1[[sampleCollectionAsset].length]? =
        some sampleRealCollectionAsset ∧
      ∀ b, (handleSaveToCollectionResolve (collectionTempIdFor 9) (.ok sampleRealCollectionAsset)
          ([sampleCollectionAsset] ++
            mkTempCollectionAsset "u1" "IMG" "individual" "coat" "outerwear" 9 "T9" ::
            [])).1[[sampleCollectionAsset].length]? =
          some b → ¬ ("temp_".data <+: b.id.data))) :=
  ⟨⟨⟨by decide, by decide, by decide, by decide⟩,
    claim_C2_save_success_replaces_in_place.1 (tempIdFor 9) sampleRealAsset
      (mkTempAsset "u1" "IMG" 9 "T9") [sampleAsset] [] (by decide) (by decide) (by decide)
      (by decide)⟩,
   ⟨⟨by decide, by decide, by decide, by decide⟩,
    claim_C2_save_success_replaces_in_place.2 (collectionTempIdFor 9) sampleRealCollectionAsset
      (mkTempCollectionAsset "u1" "IMG" "individual" "coat" "outerwear" 9 "T9")
      [sampleCollectionAsset] [] (by decide) (by decide) (by decide) (by decide)⟩⟩

/-! ## Optimistic delete (handleDeleteAsset, handleDeleteAssetFromCollection)

The handler is async: it synchronously checks the in-flight guard
(JavaScript truthiness of the deleting id), snapshots the list, removes the
entry, marks the deleting id, then awaits the remote delete; on rejection it
restores the snapshot and sets the user-visible error; the finally clause
clears the deleting id.  The phase up to the remote call is the start
function (second component: the (id, image_url) arguments of the remote
delete that was issued, or none when the guard blocked); the continuation
after the await is the resolve function, taking the snapshot and the remote
outcome. -/

structure GalleryState where
  galleryAssets : List GeneratedAsset
  galleryError : Option String
  deletingAssetId : Option String
  deriving Repr, DecidableEq

structure CollectionState where
  collectionAssets : List CollectionAsset
  collectionError : Option String
  deletingCollectionAssetId : Option String
  deriving Repr, DecidableEq

def handleDeleteAssetStart (assetToDelete : GeneratedAsset) (s : GalleryState) :
    GalleryState × Option (String × String) :=
  if jsTruthyStr s.deletingAssetId then (s, none)
  else
    ({ s with
        galleryAssets := s.galleryAssets.filter fun asset => asset.id ≠ assetToDelete.id
        deletingAssetId := some assetToDelete.id },
      some (assetToDelete.id, assetToDelete.image_url))

def handleDeleteAssetResolve (originalAssets : List GeneratedAsset)
    (result : Except String Unit) (s : GalleryState) : GalleryState :=
  match result with
  | .ok _ => { s with deletingAssetId := none }
  | .error _ =>
    { s with
        galleryAssets := originalAssets
        galleryError := some "Could not delete the asset. Please try again."
        deletingAssetId := none }

def handleDeleteAssetFromCollectionStart (assetToDelete : CollectionAsset)
    (s : CollectionState) : CollectionState × Option (String × String) :=
  if jsTruthyStr s.deletingCollectionAssetId then (s, none)
  else
    ({ s with
        collectionAssets := s.collectionAssets.filter fun asset => asset.id ≠ assetToDelete.id
        deletingCollectionAssetId := some assetToDelete.id },
      some (assetToDelete.id, assetToDelete.image_url))

def handleDeleteAssetFromCollectionResolve (originalAssets : List CollectionAsset)
    (result : Except String Unit) (s : CollectionState) : CollectionState :=
  match result with
  | .ok _ => { s with deletingCollectionAssetId := none }
  | .error _ =>
    { s with
        collectionAssets := originalAssets
        collectionError := some "Could not delete the asset. Please try again."
        deletingCollectionAssetId := none }

/-! ## Claim theorems: delete -/

/-- Claim C4: when the remote delete fails, the resolve phase restores the
list to exactly the pre-delete snapshot (same entries, same order) and sets
the list's error flag to a non-null message; the deleting marker is cleared
by the finally clause.  The hypothesis frames the scenario: the guard let
the delete start.  Both lists are covered. -/
theorem claim_C4_delete_failure_restores_snapshot :
    (∀ (a : GeneratedAsset) (s : GalleryState) (e : String),
      jsTruthyStr s.deletingAssetId = false →
      handleDeleteAssetResolve s.galleryAssets (.error e) (handleDeleteAssetStart a s).1 =
        { galleryAssets := s.galleryAssets
          galleryError := some "Could not delete the asset. Please try again."
          deletingAssetId := none } ∧
      (handleDeleteAssetResolve s.galleryAssets (.error e)
          (handleDeleteAssetStart a s).1).galleryAssets = s.galleryAssets ∧
      (handleDeleteAssetResolve s.galleryAssets (.error e)
          (handleDeleteAssetStart a s).1).galleryError ≠ none) ∧
    (∀ (a : CollectionAsset) (s : CollectionState) (e : String),
      jsTruthyStr s.deletingCollectionAssetId = false →
      handleDeleteAssetFromCollectionResolve s.collectionAssets (.error e)
          (handleDeleteAssetFromCollectionStart a s).1 =
        { collectionAssets := s.collectionAssets
          collectionError := some "Could not delete the asset. Please try again."
          deletingCollectionAssetId := none } ∧
      (handleDeleteAssetFromCollectionResolve s.collectionAssets (.error e)
          (handleDeleteAssetFromCollectionStart a s).1).collectionAssets = s.collectionAssets ∧
      (handleDeleteAssetFromCollectionResolve s.collectionAssets (.error e)
          (handleDeleteAssetFromCollectionStart a s).1).collectionError ≠ none) := by
  constructor
  · intro a s e hguard
    simp [handleDeleteAssetStart, handleDeleteAssetResolve, hguard]
  · intro a s e hguard
    simp [handleDeleteAssetFromCollectionStart, handleDeleteAssetFromCollectionResolve, hguard]

/-- Witness for claim C4 at concrete inputs, both lists. -/
theorem claim_C4_witness :
    (jsTruthyStr (GalleryState.mk [sampleAsset] none none).deletingAssetId = false ∧
      handleDeleteAssetResolve [sampleAsset] (.error "network down")
          (handleDeleteAssetStart sampleAsset (GalleryState.mk [sampleAsset] none none)).1 =
        { galleryAssets := [sampleAsset]
          galleryError := some "Could not delete the asset. Please try again."
          deletingAssetId := none } ∧
      (handleDeleteAssetResolve [sampleAsset] (.error "network down")
          (handleDeleteAssetStart sampleAsset
            (GalleryState.mk [sampleAsset] none none)).1).galleryAssets = [sampleAsset] ∧
      (handleDeleteAssetResolve [sampleAsset] (.error "network down")
          (handleDeleteAssetStart sampleAsset
            (GalleryState.mk [sampleAsset] none none)).1).galleryError ≠ none) ∧
    (jsTruthyStr (CollectionState.mk [sampleCollectionAsset] none none).deletingCollectionAssetId
        = false ∧
      handleDeleteAssetFromCollectionResolve [sampleCollectionAsset] (.error "network down")
          (handleDeleteAssetFromCollectionStart sampleCollectionAsset
            (CollectionState.mk [sampleCollectionAsset] none none)).1 =
        { collectionAssets := [sampleCollectionAsset]
          collectionError := some "Could not delete the asset. Please try again."
          deletingCollectionAssetId := none } ∧
      (handleDeleteAssetFromCollectionResolve [sampleCollectionAsset] (.error "network down")
          (handleDeleteAssetFromCollectionStart sampleCollectionAsset
            (CollectionState.mk [sampleCollectionAsset] none none)).1).collectionAssets =
        [sampleCollectionAsset] ∧
      (handleDeleteAssetFromCollectionResolve [sampleCollectionAsset] (.error "network down")
          (handleDeleteAssetFromCollectionStart sampleCollectionAsset
            (CollectionState.mk [sampleCollectionAsset] none none)).1).collectionError ≠ none) :=
  ⟨⟨by decide,
    claim_C4_delete_failure_restores_snapshot.1 sampleAsset
      (GalleryState.mk [sampleAsset] none none) "network down" (by decide)⟩,
   ⟨by decide,
    claim_C4_delete_failure_restores_snapshot.2 sampleCollectionAsset
      (CollectionState.mk [sampleCollectionAsset] none none) "network down" (by decide)⟩⟩

/-- Claim C5: while a delete is in flight on a list (the deleting marker
holds the in-flight asset's id, a non-empty string, so it is truthy), a
second delete call on that list returns the state unchanged and issues no
remote delete; hence two delete calls in quick succession — the second
before the first resolves — issue at most the first call's single remote
delete.  Both lists are covered. -/
theorem deleteStart_blocked (a : GeneratedAsset) (s : GalleryState)
    (h : jsTruthyStr s.deletingAssetId = true) :
    handleDeleteAssetStart a s = (s, none) := by
  simp [handleDeleteAssetStart, h]

theorem deleteFromCollectionStart_blocked (a : CollectionAsset) (s : CollectionState)
    (h : jsTruthyStr s.deletingCollectionAssetId = true) :
    handleDeleteAssetFromCollectionStart a s = (s, none) := by
  simp [handleDeleteAssetFromCollectionStart, h]

theorem claim_C5_delete_reentrancy_guard :
    (∀ (a : GeneratedAsset) (s : GalleryState) (d : String),
      s.deletingAssetId = some d → d ≠ "" →
      handleDeleteAssetStart a s = (s, none)) ∧
    (∀ (a₁ a₂ : GeneratedAsset) (s : GalleryState),
      jsTruthyStr s.deletingAssetId = false → a₁.id ≠ "" →
      (handleDeleteAssetStart a₁ s).2 = some (a₁.id, a₁.image_url) ∧
      handleDeleteAssetStart a₂ (handleDeleteAssetStart a₁ s).1 =
        ((handleDeleteAssetStart a₁ s).1, none)) ∧
    (∀ (a : CollectionAsset) (s : CollectionState) (d : String),
      s.deletingCollectionAssetId = some d → d ≠ "" →
      handleDeleteAssetFromCollectionStart a s = (s, none)) ∧
    (∀ (a₁ a₂ : CollectionAsset) (s : CollectionState),
      jsTruthyStr s.deletingCollectionAssetId = false → a₁.id ≠ "" →
      (handleDeleteAssetFromCollectionStart a₁ s).2 = some (a₁.id, a₁.image_url) ∧
      handleDeleteAssetFromCollectionStart a₂ (handleDeleteAssetFromCollectionStart a₁ s).1 =
        ((handleDeleteAssetFromCollectionStart a₁ s).1, none)) := by
  refine ⟨?_, ?_, ?_, ?_⟩
  · intro a s d hd hne
    simp [handleDeleteAssetStart, jsTruthyStr, hd, hne]
  · intro a₁ a₂ s hguard hne
    constructor
    · simp [handleDeleteAssetStart, hguard]
    · have h1 : (handleDeleteAssetStart a₁ s).1.deletingAssetId = some a₁.id := by
        simp [handleDeleteAssetStart, hguard]
      exact deleteStart_blocked a₂ _ (by rw [h1]; simp [jsTruthyStr, hne])
  · intro a s d hd hne
    simp [handleDeleteAssetFromCollectionStart, jsTruthyStr, hd, hne]
  · intro a₁ a₂ s hguard hne
    constructor
    · simp [handleDeleteAssetFromCollectionStart, hguard]
    · have h1 : (handleDeleteAssetFromCollectionStart a₁ s).1.deletingCollectionAssetId =
          some a₁.id := by
        simp [handleDeleteAssetFromCollectionStart, hguard]
      exact deleteFromCollectionStart_blocked a₂ _ (by rw [h1]; simp [jsTruthyStr, hne])

/-- Witness for claim C5 at concrete inputs: an in-flight marker blocks a
second delete, and a back-to-back double invocation issues one remote
delete.  Both lists. -/
theorem claim_C5_witness :
    ((GalleryState.mk [sampleAsset] none (some "real_9")).deletingAssetId = some "real_9" ∧
      "real_9" ≠ "" ∧
      handleDeleteAssetStart sampleAsset (GalleryState.mk [sampleAsset] none (some "real_9")) =
        (GalleryState.mk [sampleAsset] none (some "real_9"), none)) ∧
    (jsTruthyStr (GalleryState.mk [sampleAsset, sampleRealAsset] none none).deletingAssetId =
        false ∧ sampleAsset.id ≠ "" ∧
      (handleDeleteAssetStart sampleAsset
          (GalleryState.mk [sampleAsset, sampleRealAsset] none none)).2 =
        some (sampleAsset.id, sampleAsset.image_url) ∧
      handleDeleteAssetStart sampleRealAsset
          (handleDeleteAssetStart sampleAsset
            (GalleryState.mk [sampleAsset, sampleRealAsset] none none)).1 =
        ((handleDeleteAssetStart sampleAsset
            (GalleryState.mk [sampleAsset, sampleRealAsset] none none)).1, none)) ∧
    ((CollectionState.mk [sampleCollectionAsset] none
        (some "real_c9")).deletingCollectionAssetId = some "real_c9" ∧ "real_c9" ≠ "" ∧
      handleDeleteAssetFromCollectionStart sampleCollectionAsset
          (CollectionState.mk [sampleCollectionAsset] none (some "real_c9")) =
        (CollectionState.mk [sampleCollectionAsset] none (some "real_c9"), none)) ∧
    (jsTruthyStr (CollectionState.mk [sampleCollectionAsset] none
        none).deletingCollectionAssetId = false ∧ sampleCollectionAsset.id ≠ "" ∧
      (handleDeleteAssetFromCollectionStart sampleCollectionAsset
          (CollectionState.mk [sampleCollectionAsset] none none)).2 =
        some (sampleCollectionAsset.id, sampleCollectionAsset.image_url) ∧
      handleDeleteAssetFromCollectionStart sampleRealCollectionAsset
          (handleDeleteAssetFromCollectionStart sampleCollectionAsset
            (CollectionState.mk [sampleCollectionAsset] none none)).1 =
        ((handleDeleteAssetFromCollectionStart sampleCollectionAsset
            (CollectionState.mk [sampleCollectionAsset] none none)).1, none)) :=
  ⟨⟨by decide, by decide,
    claim_C5_delete_reentrancy_guard.1 sampleAsset
      (GalleryState.mk [sampleAsset] none (some "real_9")) "real_9" (by decide) (by decide)⟩,
   ⟨by decide, by decide,
    claim_C5_delete_reentrancy_guard.2.1 sampleAsset sampleRealAsset
      (GalleryState.mk [sampleAsset, sampleRealAsset] none none) (by decide) (by decide)⟩,
   ⟨by decide, by decide,
    claim_C5_delete_reentrancy_guard.2.2.1 sampleCollectionAsset
      (CollectionState.mk [sampleCollectionAsset] none (some "real_c9")) "real_c9"
      (by decide) (by decide)⟩,
   ⟨by decide, by decide,
    claim_C5_delete_reentrancy_guard.2.2.2 sampleCollectionAsset sampleRealCollectionAsset
      (CollectionState.mk [sampleCollectionAsset] none none) (by decide) (by decide)⟩⟩

/-! ## Session projection (processSession) and logout (handleLogout) -/

structure AppState where
  currentUser : Option User
  galleryAssets : List GeneratedAsset
  collectionAssets : List CollectionAsset
  deriving Repr, DecidableEq

/-- The User projection built by processSession from a session user and the
optional profile row: userEmail is the email with the nullish fallback to
the empty string, and the username is the or-chain
profile username, then userEmail, then the constant default. -/
def projectUser (su : SessionUser) (profile : Option Profile) : User :=
  let userEmail := su.email.getD ""
  { id := su.id
    email := userEmail
    username := jsOrOS (profile.bind Profile.username) (jsOrStr userEmail "ghost_user")
    avatar := profile.bind Profile.avatar_url }

/-- The display-name cascade as the specification words it: the profile's
username when a profile record with a non-empty username exists, otherwise
the user's email when it is non-empty, otherwise the fixed default.  Written
from the spec sentence, to be compared with projectUser. -/
def specDisplayName (profile : Option Profile) (email : Option String) : String :=
  match profile.bind Profile.username with
  | some u => if u ≠ "" then u else specEmailFallback email
  | none => specEmailFallback email
where
  specEmailFallback : Option String → String
    | some e => if e ≠ "" then e else "ghost_user"
    | none => "ghost_user"

/-- The catch branch of processSession (an error thrown during projection,
after the profile fetch which is only warned about): clear the current user
and both lists, and navigate to the landing route only when the current
route is not one of the two public routes.  Second component: the navigation
target, none when no navigate call happens. -/
def processSessionCatch (pathname : String) (s : AppState) : AppState × Option String :=
  let cleared : AppState :=
    { s with currentUser := none, galleryAssets := [], collectionAssets := [] }
  let isPublicPath := pathname = PATHS_LANDING ∨ pathname = PATHS_AUTH
  if isPublicPath then (cleared, none) else (cleared, some PATHS_LANDING)

/-- handleLogout: await signOut, log its error if any, then unconditionally
clear the user and both lists and navigate to the landing route.  Components:
new state, navigation target, log lines. -/
def handleLogout (signOutError : Option String) (s : AppState) :
    AppState × Option String × List String :=
  let logs := match signOutError with
    | some e => ["Error logging out: " ++ e]
    | none => []
  ({ s with currentUser := none, galleryAssets := [], collectionAssets := [] },
    some PATHS_LANDING, logs)

/-! ## Claim theorems: session, logout -/

/-- Claim C7: for every session event carrying a user, the derived display
name is the profile's username when a profile with a non-empty username
exists, otherwise the user's email when non-empty, otherwise the fixed
default, i.e. the or-chain of the source agrees with the cascade as the
specification words it. -/
theorem claim_C7_display_name_cascade :
    ∀ (su : SessionUser) (profile : Option Profile),
      (projectUser su profile).username = specDisplayName profile su.email := by
  intro su profile
  rcases su with ⟨i, email⟩
  show jsOrOS (profile.bind Profile.username) (jsOrStr (email.getD "") "ghost_user") =
    specDisplayName profile email
  rcases hu : profile.bind Profile.username with _ | u
  · rcases email with _ | e
    · simp [jsOrOS, jsOrStr, specDisplayName, hu, specDisplayName.specEmailFallback]
    · by_cases he : e = "" <;>
        simp [jsOrOS, jsOrStr, specDisplayName, hu, specDisplayName.specEmailFallback, he]
  · by_cases hue : u = ""
    · rcases email with _ | e
      · simp [jsOrOS, jsOrStr, specDisplayName, hu, specDisplayName.specEmailFallback, hue]
      · by_cases he : e = "" <;>
          simp [jsOrOS, jsOrStr, specDisplayName, hu, specDisplayName.specEmailFallback, hue, he]
    · simp [jsOrOS, jsOrStr, specDisplayName, hu, hue]

/-- Claim C8, counterexample: an error during projection while the current
route is the auth route (a public route other than landing) clears the state
but performs no navigation at all — in particular it does not redirect to
the landing route, against the claim's unconditional redirect. -/
theorem claim_C8_counterexample :
    (processSessionCatch PATHS_AUTH
      (AppState.mk (some sampleUser) [sampleAsset] [sampleCollectionAsset])).2 ≠
      some PATHS_LANDING := by
  decide

/-- Claim C8 as amended: any error during projection forces the logged-out
projection — user null, both lists cleared — and redirects to the landing
route exactly when the current route is not one of the two public routes
(landing, auth); on a public route no redirect is issued. -/
theorem claim_C8_amended_fail_closed :
    ∀ (pathname : String) (s : AppState),
      (processSessionCatch pathname s).1.currentUser = none ∧
      (processSessionCatch pathname s).1.galleryAssets = [] ∧
      (processSessionCatch pathname s).1.collectionAssets = [] ∧
      (processSessionCatch pathname s).2 =
        (if pathname = PATHS_LANDING ∨ pathname = PATHS_AUTH then none
          else some PATHS_LANDING) := by
  intro pathname s
  by_cases h : pathname = PATHS_LANDING ∨ pathname = PATHS_AUTH <;>
    simp [processSessionCatch, h]

/-- Claim C10: logout always clears the local session projection — user
null, both lists emptied — and navigates to the landing route, whether or
not the identity provider's signOut returned an error; the error is only
logged. -/
theorem claim_C10_logout_always_clears :
    ∀ (signOutError : Option String) (s : AppState),
      (handleLogout signOutError s).1 = AppState.mk none [] [] ∧
      (handleLogout signOutError s).2.1 = some PATHS_LANDING := by
  intro signOutError s
  exact ⟨rfl, rfl⟩

/-! ## SSR handler (src/api/index.ts)

The universal handler reads the template, awaits the render function on the
request path, splices the output over the outlet token, and answers 200 with
the final HTML; any throw in the try block — template read or render — is
answered with status 500 and the raw error message as the whole body.
Documents and messages are lists of characters.  The replace call of
JavaScript with a string search pattern rewrites the first occurrence only
and interprets the replacement patterns of GetSubstitution in the
replacement string: dollar-dollar (a literal dollar), dollar-ampersand (the
matched substring), dollar-backquote (the portion of the subject before the
match) and dollar-quote (the portion after it); with a string pattern there
are no capture groups, so every other dollar sequence stays literal.
getSubstitution is that expansion, replaceFirst the whole call. -/

def dollarChar : Char := Char.ofNat 36

def ampChar : Char := Char.ofNat 38

def backquoteChar : Char := Char.ofNat 96

def quoteChar : Char := Char.ofNat 39

def getSubstitution (matched before after : List Char) : List Char → List Char
  | [] => []
  | [c] => [c]
  | c :: d :: rest2 =>
    if c = dollarChar then
      if d = dollarChar then dollarChar :: getSubstitution matched before after rest2
      else if d = ampChar then matched ++ getSubstitution matched before after rest2
      else if d = backquoteChar then before ++ getSubstitution matched before after rest2
      else if d = quoteChar then after ++ getSubstitution matched before after rest2
      else c :: getSubstitution matched before after (d :: rest2)
    else c :: getSubstitution matched before after (d :: rest2)

def replaceFirstAux (pat rep full : List Char) : Nat → List Char → List Char
  | _, [] => []
  | pos, c :: rest =>
    if pat.isPrefixOf (c :: rest) then
      getSubstitution pat (full.take pos) ((c :: rest).drop pat.length) rep ++
        (c :: rest).drop pat.length
    else c :: replaceFirstAux pat rep full (pos + 1) rest

/-- JavaScript s.replace(pat, rep) with string arguments: expand rep at the
first occurrence of pat in s; s is unchanged when pat does not occur. -/
def replaceFirst (s pat rep : List Char) : List Char :=
  replaceFirstAux pat rep s 0 s

def ssrOutlet : List Char := "<!--ssr-outlet-->".data

def ssrHandler (templateResult renderResult : Except (List Char) (List Char)) :
    Nat × List Char :=
  match templateResult with
  | .error e => (500, e)
  | .ok template =>
    match renderResult with
    | .error e => (500, e)
    | .ok appHtml => (200, replaceFirst template ssrOutlet appHtml)

theorem isPrefixOf_append_self (l q : List Char) : l.isPrefixOf (l ++ q) = true := by
  induction l with
  | nil => simp [List.isPrefixOf]
  | cons c cs ih => simp [List.isPrefixOf, ih]

theorem drop_length_append (l q : List Char) : (l ++ q).drop l.length = q := by
  induction l with
  | nil => rfl
  | cons c cs ih => simp [ih]

theorem take_length_append (l q : List Char) : (l ++ q).take l.length = l := by
  induction l with
  | nil => rfl
  | cons c cs ih => simp [ih]

theorem getSubstitution_of_no_dollar (matched before after : List Char) :
    ∀ rep : List Char, dollarChar ∉ rep →
      getSubstitution matched before after rep = rep := by
  intro rep
  induction rep with
  | nil => intro h; simp [getSubstitution]
  | cons c rest ih =>
    intro h
    rw [List.mem_cons] at h
    push_neg at h
    have hc : ¬ (c = dollarChar) := fun hh => h.1 hh.symm
    cases rest with
    | nil => simp [getSubstitution]
    | cons d rest2 => simp [getSubstitution, hc, ih h.2]

theorem replaceFirstAux_splice (pat rep full : List Char) (hpat : pat ≠ []) :
    ∀ (p q : List Char) (pos : Nat),
      (∀ i < p.length, pat.isPrefixOf ((p ++ (pat ++ q)).drop i) = false) →
      replaceFirstAux pat rep full pos (p ++ (pat ++ q)) =
        p ++ (getSubstitution pat (full.take (pos + p.length)) q rep ++ q) := by
  intro p
  induction p with
  | nil =>
    intro q pos h
    rcases pat with _ | ⟨pc, pt⟩
    · exact absurd rfl hpat
    · simp [replaceFirstAux, isPrefixOf_append_self (pc :: pt) q,
        drop_length_append (pc :: pt) q]
  | cons c pr ih =>
    intro q pos h
    have hc : pat.isPrefixOf (c :: (pr ++ (pat ++ q))) = false := by
      simpa using h 0 (by simp)
    have hrest : ∀ i < pr.length, pat.isPrefixOf ((pr ++ (pat ++ q)).drop i) = false := by
      intro i hi
      simpa using h (i + 1) (by simpa using Nat.succ_lt_succ hi)
    have harith : pos + 1 + pr.length = pos + (pr.length + 1) := by omega
    simp [replaceFirstAux, hc, ih q (pos + 1) hrest, harith]

theorem replaceFirst_splice (pat rep : List Char) (hpat : pat ≠ []) :
    ∀ (p q : List Char),
      (∀ i < p.length, pat.isPrefixOf ((p ++ (pat ++ q)).drop i) = false) →
      replaceFirst (p ++ (pat ++ q)) pat rep =
        p ++ (getSubstitution pat p q rep ++ q) := by
  intro p q h
  show replaceFirstAux pat rep (p ++ (pat ++ q)) 0 (p ++ (pat ++ q)) = _
  rw [replaceFirstAux_splice pat rep (p ++ (pat ++ q)) hpat p q 0 h]
  simp [take_length_append]

/-- Claim C9, counterexample: a render output consisting of the two
characters dollar-ampersand makes the replace call of JavaScript re-insert
the matched outlet token, so the success body is not the template with the
token substituted by the render output — here it is the unmodified template,
in which the token still stands. -/
theorem claim_C9_counterexample :
    ssrHandler (.ok ("<a>".data ++ (ssrOutlet ++ "</a>".data))) (.ok "$&".data) ≠
      (200, "<a>".data ++ ("$&".data ++ "</a>".data)) ∧
    (ssrHandler (.ok ("<a>".data ++ (ssrOutlet ++ "</a>".data))) (.ok "$&".data)).2 =
      "<a>".data ++ (ssrOutlet ++ "</a>".data) := by
  constructor
  · decide
  · decide

/-- Claim C9 as amended: the SSR handler answers a successful request with
status 200 and the template in which the outlet token (at its first
occurrence, the hypothesis locating it) is substituted by the render
function's output as expanded by the replacement-pattern rules of
JavaScript's replace, the surrounding template being untouched; whenever the
output contains no dollar character the expansion is the output itself, so
the token is substituted by the output literally.  Any failure — of the
template read or of the render — is answered with status 500 and a body
that is exactly the raw error message. -/
theorem claim_C9_ssr_responses :
    (∀ (p q appHtml : List Char),
      (∀ i < p.length, ssrOutlet.isPrefixOf ((p ++ (ssrOutlet ++ q)).drop i) = false) →
      ssrHandler (.ok (p ++ (ssrOutlet ++ q))) (.ok appHtml) =
        (200, p ++ (getSubstitution ssrOutlet p q appHtml ++ q))) ∧
    (∀ (p q appHtml : List Char),
      (∀ i < p.length, ssrOutlet.isPrefixOf ((p ++ (ssrOutlet ++ q)).drop i) = false) →
      dollarChar ∉ appHtml →
      ssrHandler (.ok (p ++ (ssrOutlet ++ q))) (.ok appHtml) = (200, p ++ (appHtml ++ q))) ∧
    (∀ (e : List Char) (r : Except (List Char) (List Char)),
      ssrHandler (.error e) r = (500, e)) ∧
    (∀ (t e : List Char), ssrHandler (.ok t) (.error e) = (500, e)) := by
  have hsucc : ∀ (p q appHtml : List Char),
      (∀ i < p.length, ssrOutlet.isPrefixOf ((p ++ (ssrOutlet ++ q)).drop i) = false) →
      ssrHandler (.ok (p ++ (ssrOutlet ++ q))) (.ok appHtml) =
        (200, p ++ (getSubstitution ssrOutlet p q appHtml ++ q)) := by
    intro p q appHtml h
    show (200, replaceFirst (p ++ (ssrOutlet ++ q)) ssrOutlet appHtml) = _
    rw [replaceFirst_splice ssrOutlet appHtml (by decide) p q h]
  refine ⟨hsucc, ?_, ?_, ?_⟩
  · intro p q appHtml h hd
    rw [hsucc p q appHtml h, getSubstitution_of_no_dollar ssrOutlet p q appHtml hd]
  · intro e r
    rfl
  · intro t e
    rfl

/-- Witness for claim C9 at concrete inputs: a dollar-free render output
spliced literally, a dollar-dollar output under the general expansion
equation, and the two failure responses. -/
theorem claim_C9_witness :
    ((∀ i < "<body>".data.length,
      ssrOutlet.isPrefixOf (("<body>".data ++ (ssrOutlet ++ "</body>".data)).drop i) = false) ∧
      dollarChar ∉ "<p>APP</p>".data ∧
      ssrHandler (.ok ("<body>".data ++ (ssrOutlet ++ "</body>".data)))
          (.ok "<p>APP</p>".data) =
        (200, "<body>".data ++ ("<p>APP</p>".data ++ "</body>".data)) ∧
      ssrHandler (.ok ("<body>".data ++ (ssrOutlet ++ "</body>".data))) (.ok "$$x".data) =
        (200, "<body>".data ++
          (getSubstitution ssrOutlet "<body>".data "</body>".data "$$x".data ++
            "</body>".data))) ∧
    ssrHandler (.error "ENOENT".data) (.ok "x".data) = (500, "ENOENT".data) ∧
    ssrHandler (.ok "<html></html>".data) (.error "render failed".data) =
      (500, "render failed".data) :=
  ⟨⟨by decide, by decide,
    claim_C9_ssr_responses.2.1 "<body>".data "</body>".data "<p>APP</p>".data (by decide)
      (by decide),
    claim_C9_ssr_responses.1 "<body>".data "</body>".data "$$x".data (by decide)⟩,
   claim_C9_ssr_responses.2.2.1 "ENOENT".data (.ok "x".data),
   claim_C9_ssr_responses.2.2.2 "<html></html>".data "render failed".data⟩
